import Mathlib

/-!
Verification of the AuraSync session/history core.

The definitions below are a shallow embedding of the TypeScript sources:
the history hook (`useHistoryManager`), the orchestration handlers in
`App.tsx` (`handleGeneration`, `handleGenerateProduct`, `handleGenerateRoom`,
`resetExperience`, `simulateProgress`) and the two-stage service function
`generateVisual` from the Gemini service module.  External service calls are
modelled by passing the call's outcome as an explicit parameter; JavaScript
truthiness of nullable strings is modelled by `jsTruthy`.
-/

namespace AuraSync

/-- JavaScript truthiness of a `string | null` value: `null`, `undefined`
and the empty string are falsy, every other string is truthy. -/
def jsTruthy : Option String → Bool
  | none => false
  | some s => !s.isEmpty

/-- One product slot, mirroring the `Product` interface of `App.tsx`
(`id`, `image`, `isGenerating`). -/
structure Product where
  id : String
  image : Option String
  isGenerating : Bool
deriving Repr, DecidableEq

/-- The `currentState` object assembled in `App.tsx` and handed to the
history hook: the five session fields that get snapshotted. -/
structure SessionState where
  generatedImage : Option String
  prompt : String
  roomImage : Option String
  products : List Product
  isInitialGeneration : Bool
deriving Repr, DecidableEq

/-- The `HistoryState` interface of the history hook: a snapshot of the
session fields plus an `id` and a `timestamp`. -/
structure HistoryState where
  id : String
  timestamp : Nat
  generatedImage : Option String
  prompt : String
  roomImage : Option String
  products : List Product
  isInitialGeneration : Bool
deriving Repr, DecidableEq

/-- The spread copy `p => ({ ...p })` applied to each product when a
snapshot is built. -/
def copyProduct (p : Product) : Product :=
  { id := p.id, image := p.image, isGenerating := p.isGenerating }

/-- Construction of the `newState` snapshot inside `saveToHistory`;
`Date.now()` is modelled by the explicit clock value `now`. -/
def mkSnapshot (now : Nat) (cs : SessionState) : HistoryState :=
  { id := "state-" ++ toString now
    timestamp := now
    generatedImage := cs.generatedImage
    prompt := cs.prompt
    roomImage := cs.roomImage
    products := cs.products.map copyProduct
    isInitialGeneration := cs.isInitialGeneration }

/-- The state of the history hook: the `history` array and the
`currentIndex` cursor (`-1` when empty). -/
structure HistoryStore where
  history : List HistoryState
  currentIndex : Int
deriving Repr, DecidableEq

/-- The hook's initial state: `useState([])` and `useState(-1)`. -/
def emptyStore : HistoryStore := ⟨[], -1⟩

/-- `saveToHistory` from the history hook: no-op when the current state has
no generated image; otherwise truncate entries after the cursor (when the
cursor is non-negative), append the new snapshot, drop the oldest entry when
the capacity `maxHistorySize` is exceeded, and move the cursor to the new
tail. -/
def saveToHistory (maxHistorySize : Nat) (now : Nat) (cs : SessionState)
    (st : HistoryStore) : HistoryStore :=
  if jsTruthy cs.generatedImage = false then st
  else
    let newState := mkSnapshot now cs
    let h1 := if st.currentIndex ≥ 0 then
                st.history.take (st.currentIndex + 1).toNat
              else st.history
    let h2 := h1 ++ [newState]
    let h3 := if h2.length > maxHistorySize then h2.tail else h2
    ⟨h3, (h3.length : Int) - 1⟩

/-- `undo` from the history hook: when `currentIndex > 0`, decrement the
cursor and hand the snapshot at the new cursor to the restore callback
(returned here as the second component); otherwise do nothing. -/
def undo (st : HistoryStore) : HistoryStore × Option HistoryState :=
  if st.currentIndex > 0 then
    let newIndex := st.currentIndex - 1
    (⟨st.history, newIndex⟩, st.history[newIndex.toNat]?)
  else (st, none)

/-- `redo` from the history hook: when `currentIndex < history.length - 1`,
increment the cursor and hand out the snapshot at the new cursor. -/
def redo (st : HistoryStore) : HistoryStore × Option HistoryState :=
  if st.currentIndex < (st.history.length : Int) - 1 then
    let newIndex := st.currentIndex + 1
    (⟨st.history, newIndex⟩, st.history[newIndex.toNat]?)
  else (st, none)

/-- `clearHistory` from the history hook. -/
def clearHistory (_st : HistoryStore) : HistoryStore := ⟨[], -1⟩

/-- `canUndo` derived query. -/
def canUndo (st : HistoryStore) : Bool := decide (0 < st.currentIndex)

/-- `canRedo` derived query. -/
def canRedo (st : HistoryStore) : Bool :=
  decide (st.currentIndex < (st.history.length : Int) - 1)

/-- `hasHistory` derived query. -/
def hasHistory (st : HistoryStore) : Bool := decide (0 < st.history.length)

/-- The full component state of `App.tsx` relevant to the claims: the five
session fields plus the error slot and the busy flags. -/
structure AppState where
  roomImage : Option String
  products : List Product
  prompt : String
  generatedImage : Option String
  isLoading : Bool
  error : Option String
  isInitialGeneration : Bool
  isGeneratingRoom : Bool
deriving Repr, DecidableEq

/-- The `currentState` object built from the component state on each
render. -/
def sessionOf (s : AppState) : SessionState :=
  { generatedImage := s.generatedImage
    prompt := s.prompt
    roomImage := s.roomImage
    products := s.products
    isInitialGeneration := s.isInitialGeneration }

/-- The `onStateRestore` callback wired into the history hook: overwrite
the five snapshotted fields from the snapshot and clear the error. -/
def restoreState (h : HistoryState) (s : AppState) : AppState :=
  { s with
    generatedImage := h.generatedImage
    prompt := h.prompt
    roomImage := h.roomImage
    products := h.products
    isInitialGeneration := h.isInitialGeneration
    error := none }

/-- Modelled from the spec: `INITIAL_ROOM_IMAGE` is defined in
`constants.ts`, which is not among the provided sources.  The spec
describes the start and reset state as having a "default scene", so the
constant is modelled as a present default image. -/
def INITIAL_ROOM_IMAGE : Option String := some "default-room-image"

/-- Modelled from the spec: `INITIAL_PRODUCT_IMAGE` is defined in
`constants.ts`, which is not among the provided sources.  The spec
describes the start and reset state as having "one empty item"
(an item with absent image), so the constant is modelled as absent. -/
def INITIAL_PRODUCT_IMAGE : Option String := none

/-- `resetExperience` from `App.tsx`: clear the history store first, then
reset the session fields to their defaults.  The deferred
`setPrompt('')` is modelled as part of the same atomic reset.  Note that
the code never touches `isGeneratingRoom` here, so that flag keeps its
prior value. -/
def resetExperience (now : Nat) (s : AppState) (st : HistoryStore) :
    AppState × HistoryStore :=
  let stCleared := clearHistory st
  ({ roomImage := INITIAL_ROOM_IMAGE
     products := [{ id := "prod-" ++ toString now
                    image := INITIAL_PRODUCT_IMAGE
                    isGenerating := false }]
     prompt := ""
     generatedImage := none
     isLoading := false
     error := none
     isInitialGeneration := true
     isGeneratingRoom := s.isGeneratingRoom }, stCleared)

/-- One part of a Gemini API candidate: possibly inline image data and
possibly text (`part.inlineData?.data` and `part.text`). -/
structure Part where
  inlineData : Option String
  text : Option String
deriving Repr, DecidableEq

/-- One candidate of a Gemini API response. -/
structure Candidate where
  parts : List Part
deriving Repr, DecidableEq

/-- The `promptFeedback` object of a Gemini API response. -/
structure PromptFeedback where
  blockReason : Option String
  blockReasonMessage : Option String
deriving Repr, DecidableEq

/-- A Gemini API response as consumed by `generateVisual`. -/
structure ApiResponse where
  candidates : List Candidate
  promptFeedback : Option PromptFeedback
deriving Repr, DecidableEq

/-- The `GenerateVisualResult` interface of the service module. -/
structure GenResult where
  image : Option String
  text : Option String
deriving Repr, DecidableEq

/-- The part-scanning loop shared by both stages of `generateVisual`:
walk the first candidate's parts, remembering the last part with truthy
inline data as the result image and the last part with truthy text as the
result text. -/
def extractParts (resp : ApiResponse) : Option String × Option String :=
  match resp.candidates with
  | [] => (none, none)
  | c :: _ =>
      c.parts.foldl
        (fun acc part =>
          if jsTruthy part.inlineData then (part.inlineData, acc.2)
          else if jsTruthy part.text then (acc.1, part.text)
          else acc)
        (none, none)

/-- The soft-failure sentence used when the fallback stage returns neither
image nor text and no block reason is reported. -/
def noContentMsg : String :=
  "The model did not return any content. Try adjusting your prompt."

/-- The text-only fallback stage of `generateVisual` (stage 2), given the
outcome of its service call: a thrown service error propagates (to be
wrapped by the outer catch); otherwise the response parts are scanned, and
when neither image nor text was found a truthy block reason becomes a
thrown error while its absence yields the generic no-content text. -/
def fallbackStage (stage2 : Except String ApiResponse) :
    Except String GenResult :=
  match stage2 with
  | .error msg => .error msg
  | .ok resp =>
      let img := (extractParts resp).1
      let txt := (extractParts resp).2
      if !jsTruthy img && !jsTruthy txt then
        match resp.promptFeedback with
        | some fb =>
            if jsTruthy fb.blockReason then
              .error ("Request was blocked: " ++ fb.blockReason.getD "" ++
                      " - " ++ fb.blockReasonMessage.getD "undefined")
            else .ok { image := img, text := some noContentMsg }
        | none => .ok { image := img, text := some noContentMsg }
      else .ok { image := img, text := txt }

/-- `generateVisual` from the service module, with the outcomes of the two
potential service calls passed explicitly.  Stage 1 is the multimodal
attempt: its thrown errors are swallowed by the inner catch and its
no-image responses fall through, both proceeding to the fallback stage.
Any error escaping the outer try is rethrown with the `Gemini API Error:`
prefix. -/
def generateVisual (stage1 stage2 : Except String ApiResponse) :
    Except String GenResult :=
  let inner : Except String GenResult :=
    match stage1 with
    | .ok resp =>
        let img := (extractParts resp).1
        let txt := (extractParts resp).2
        if jsTruthy img then .ok { image := img, text := txt }
        else fallbackStage stage2
    | .error _ => fallbackStage stage2
  match inner with
  | .error msg => .error ("Gemini API Error: " ++ msg)
  | .ok r => .ok r

/-- The three validation messages of `handleGeneration`. -/
def missingInputsMsg : String :=
  "Please provide a room image and at least one product image."

/-- Validation message for the refinement mode without a base image. -/
def missingBaseMsg : String :=
  "An initial image must be generated before you can refine it."

/-- Validation message for a missing prompt. -/
def missingPromptMsg : String :=
  "Please enter a prompt to generate the design."

/-- Soft-failure default text used when the service result carries neither
image nor truthy text. -/
def noImageFallbackMsg : String :=
  "Failed to generate image. The model may not have returned an image."

/-- `handleGeneration` from `App.tsx`, with the outcome of the
`generateVisual` call passed explicitly.  The returned triple is the new
component state, the new history store, and whether the external service
was contacted at all.

The success branch mirrors the source faithfully, including its deferred
history commit: the `setTimeout` callback invokes the `saveToHistory`
closure created in the render that produced this `handleGeneration`
instance, whose `currentState` is the pre-dispatch session — not the
freshly updated one.  The commit therefore reads `sessionOf s`, the state
as it was before the success-path updates. -/
def handleGeneration (now : Nat) (outcome : Except String GenResult)
    (s : AppState) (st : HistoryStore) : AppState × HistoryStore × Bool :=
  let validProducts := s.products.filter (fun p => jsTruthy p.image)
  if s.isInitialGeneration && (!jsTruthy s.roomImage || validProducts.isEmpty) then
    ({ s with error := some missingInputsMsg }, st, false)
  else if !s.isInitialGeneration && !jsTruthy s.generatedImage then
    ({ s with error := some missingBaseMsg }, st, false)
  else if s.prompt.isEmpty then
    ({ s with error := some missingPromptMsg }, st, false)
  else
    let sDisp := { s with isLoading := true, error := none }
    match outcome with
    | .error msg =>
        ({ sDisp with error := some ("Error: " ++ msg), isLoading := false },
         st, true)
    | .ok r =>
        if jsTruthy r.image then
          let img := r.image.getD ""
          let sSucc := { sDisp with
            generatedImage := some ("data:image/png;base64," ++ img)
            isInitialGeneration := false
            prompt := ""
            isLoading := false }
          (sSucc, saveToHistory 3 now (sessionOf s) st, true)
        else
          let errMsg := match r.text with
            | some t => if t.isEmpty then noImageFallbackMsg else t
            | none => noImageFallbackMsg
          ({ sDisp with error := some errMsg, isLoading := false }, st, true)

/-- `handleGenerateProduct` from `App.tsx`, with the outcome of the
`generateSourceImage` call passed explicitly. -/
def handleGenerateProduct (id : String) (genPrompt : String) (index : Nat)
    (outcome : Except String String) (s : AppState) : AppState :=
  if genPrompt.isEmpty then
    { s with error := some ("Please enter a prompt to generate Product " ++
        toString (index + 1) ++ ".") }
  else
    let s1 := { s with
      products := s.products.map
        (fun (p : Product) =>
          if p.id = id then { p with isGenerating := true } else p)
      error := none }
    let s2 := match outcome with
      | .ok result =>
          { s1 with
            products := s1.products.map
              (fun (p : Product) =>
                if p.id = id then { p with image := some result } else p) }
      | .error msg =>
          { s1 with
            error := some ("Error generating product " ++
              toString (index + 1) ++ ": " ++ msg) }
    { s2 with
      products := s2.products.map
        (fun (p : Product) =>
          if p.id = id then { p with isGenerating := false } else p) }

/-- `handleGenerateRoom` from `App.tsx`, with the outcome of the
`generateSourceImage` call passed explicitly. -/
def handleGenerateRoom (genPrompt : String) (outcome : Except String String)
    (s : AppState) : AppState :=
  if genPrompt.isEmpty then
    { s with error := some "Please enter a prompt to generate the room image." }
  else
    let s1 := { s with isGeneratingRoom := true, error := none }
    match outcome with
    | .ok result =>
        { s1 with roomImage := some result, isGeneratingRoom := false }
    | .error msg =>
        { s1 with
          error := some ("Error generating room: " ++ msg)
          isGeneratingRoom := false }

/-- One tick of the progress interval in `simulateProgress`: when the
previous value has reached 90, keep it; otherwise add the tick's random
increment `r` (which the source draws from `[0, 15)`). -/
def tick (prev r : ℚ) : ℚ := if prev ≥ 90 then prev else prev + r

/-- The progress value after a sequence of ticks with the given random
increments. -/
def ticks (start : ℚ) (rs : List ℚ) : ℚ := rs.foldl tick start

/-- The loading-progress state of `App.tsx`, with one flag per live
interval timer. -/
structure LoadingState where
  loadingProgress : ℚ
  loadingStatus : String
  showLoadingProgress : Bool
  progressIntervalActive : Bool
  statusIntervalActive : Bool

/-- The `finally` block of `simulateProgress`: cancel both interval
timers, force progress to 100 and the status to the terminal label.  The
hiding of the surface is deferred by 500 ms and modelled separately by
`hideLoading`. -/
def settleLoading (ls : LoadingState) : LoadingState :=
  { ls with
    progressIntervalActive := false
    statusIntervalActive := false
    loadingProgress := 100
    loadingStatus := "Complete!" }

/-- The deferred `setShowLoadingProgress(false)` that runs 500 ms after
settling. -/
def hideLoading (ls : LoadingState) : LoadingState :=
  { ls with showLoadingProgress := false }

/-- The history-store states reachable through the hook's operations,
starting from the initial empty store. -/
inductive Reachable (K : Nat) : HistoryStore → Prop where
  | init : Reachable K ⟨[], -1⟩
  | commit (now : Nat) (cs : SessionState) {st : HistoryStore} :
      Reachable K st → Reachable K (saveToHistory K now cs st)
  | undoStep {st : HistoryStore} :
      Reachable K st → Reachable K (undo st).1
  | redoStep {st : HistoryStore} :
      Reachable K st → Reachable K (redo st).1
  | clearStep {st : HistoryStore} :
      Reachable K st → Reachable K (clearHistory st)

/-- The store invariant: the entry list respects the capacity and the
cursor is `-1` exactly on the empty store, otherwise a valid index. -/
def Inv (K : Nat) (st : HistoryStore) : Prop :=
  st.history.length ≤ K ∧
    ((st.history = [] ∧ st.currentIndex = -1) ∨
      (0 ≤ st.currentIndex ∧ st.currentIndex < st.history.length))

lemma inv_mk (K : Nat) (l : List HistoryState) (hl : l.length ≤ K) :
    Inv K ⟨l, (l.length : Int) - 1⟩ := by
  refine ⟨hl, ?_⟩
  cases l with
  | nil => exact Or.inl ⟨rfl, rfl⟩
  | cons a as =>
      right
      constructor
      · simp
      · simp

lemma push_trim_length_le {α : Type} (K : Nat) (l : List α) (a : α)
    (hl : l.length ≤ K) :
    (if (l ++ [a]).length > K then (l ++ [a]).tail else l ++ [a]).length ≤ K := by
  split
  · rename_i hgt
    rw [List.length_tail]
    simp only [List.length_append, List.length_singleton]
    omega
  · rename_i hle
    omega

lemma inv_commit {K : Nat} {st : HistoryStore} (h : Inv K st)
    (now : Nat) (cs : SessionState) : Inv K (saveToHistory K now cs st) := by
  obtain ⟨hlen, hcur⟩ := h
  unfold saveToHistory
  by_cases himg : jsTruthy cs.generatedImage = false
  · rw [if_pos himg]
    exact ⟨hlen, hcur⟩
  · rw [if_neg himg]
    refine inv_mk K _ ?_
    refine push_trim_length_le K _ _ ?_
    split
    · calc (st.history.take (st.currentIndex + 1).toNat).length
          ≤ st.history.length := by
            rw [List.length_take]
            exact Nat.min_le_right _ _
        _ ≤ K := hlen
    · exact hlen

lemma inv_undo {K : Nat} {st : HistoryStore} (h : Inv K st) :
    Inv K (undo st).1 := by
  obtain ⟨hlen, hcur⟩ := h
  unfold undo
  split
  · rename_i hgt
    show Inv K ⟨st.history, st.currentIndex - 1⟩
    rcases hcur with ⟨he, hc⟩ | ⟨h0, hlt⟩
    · omega
    · refine ⟨hlen, Or.inr ⟨?_, ?_⟩⟩
      · show (0 : Int) ≤ st.currentIndex - 1
        omega
      · show st.currentIndex - 1 < (st.history.length : Int)
        omega
  · exact ⟨hlen, hcur⟩

lemma inv_redo {K : Nat} {st : HistoryStore} (h : Inv K st) :
    Inv K (redo st).1 := by
  obtain ⟨hlen, hcur⟩ := h
  unfold redo
  split
  · rename_i hlt
    show Inv K ⟨st.history, st.currentIndex + 1⟩
    rcases hcur with ⟨he, hc⟩ | ⟨h0, hlt2⟩
    · rw [he] at hlt
      simp at hlt
      omega
    · refine ⟨hlen, Or.inr ⟨?_, ?_⟩⟩
      · show (0 : Int) ≤ st.currentIndex + 1
        omega
      · show st.currentIndex + 1 < (st.history.length : Int)
        omega
  · exact ⟨hlen, hcur⟩

lemma inv_clear {K : Nat} (st : HistoryStore) : Inv K (clearHistory st) := by
  exact ⟨by simp [clearHistory], Or.inl ⟨rfl, rfl⟩⟩

/-- Every reachable store satisfies the invariant. -/
lemma reachable_inv {K : Nat} {st : HistoryStore} (h : Reachable K st) :
    Inv K st := by
  induction h with
  | init => exact ⟨by simp, Or.inl ⟨rfl, rfl⟩⟩
  | commit now cs _ ih => exact inv_commit ih now cs
  | undoStep _ ih => exact inv_undo ih
  | redoStep _ ih => exact inv_redo ih
  | clearStep _ ih => exact inv_clear _

lemma take_cursor_self {α : Type} (l : List α) :
    (if ((l.length : Int) - 1) ≥ 0 then
       l.take (((l.length : Int) - 1) + 1).toNat else l) = l := by
  split
  · have h : (((l.length : Int) - 1) + 1).toNat = l.length := by omega
    rw [h, List.take_length]
  · rfl

lemma rtakeStep {α : Type} (K : Nat) (L : List α) (a : α) :
    (if (L.drop (L.length - K) ++ [a]).length > K
       then (L.drop (L.length - K) ++ [a]).tail
       else L.drop (L.length - K) ++ [a])
      = (L ++ [a]).drop ((L.length + 1) - K) := by
  rcases Nat.lt_or_ge L.length K with hlt | hge
  · rw [Nat.sub_eq_zero_of_le (le_of_lt hlt), List.drop_zero]
    rw [if_neg (by simp only [List.length_append, List.length_singleton]; omega)]
    rw [Nat.sub_eq_zero_of_le hlt, List.drop_zero]
  · have hlen : (L.drop (L.length - K)).length = K := by
      rw [List.length_drop]
      omega
    rw [if_pos (by simp only [List.length_append, List.length_singleton, hlen]; omega)]
    rcases Nat.eq_zero_or_pos K with hK | hK
    · subst hK
      rw [Nat.sub_zero, List.drop_length, List.nil_append]
      have hd : (L ++ [a]).length ≤ L.length + 1 - 0 := by
        simp only [List.length_append, List.length_singleton]
        omega
      rw [List.drop_eq_nil_of_le hd]
      rfl
    · rw [← List.drop_one]
      rw [List.drop_append_eq_append_drop]
      rw [List.drop_drop]
      rw [List.drop_append_eq_append_drop]
      have h1 : L.length - K + 1 = L.length + 1 - K := by omega
      have h2 : 1 - (L.drop (L.length - K)).length = 0 := by
        rw [hlen]
        omega
      have h3 : L.length + 1 - K - L.length = 0 := by omega
      rw [h1, h2, h3]

/-- Commit of the snapshot to a store whose entries are the trailing `K`
elements of a virtual full log `L` and whose cursor sits at the tail:
the result is the store for the log `L ++ [snapshot]`. -/
lemma saveToHistory_rtake (K now : Nat) (cs : SessionState)
    (himg : jsTruthy cs.generatedImage = true) (L : List HistoryState) :
    saveToHistory K now cs
        ⟨L.drop (L.length - K), ((L.drop (L.length - K)).length : Int) - 1⟩
      = ⟨(L ++ [mkSnapshot now cs]).drop ((L.length + 1) - K),
         (((L ++ [mkSnapshot now cs]).drop ((L.length + 1) - K)).length : Int) - 1⟩ := by
  unfold saveToHistory
  rw [if_neg (by simp [himg])]
  dsimp only
  rw [take_cursor_self, rtakeStep]

/-- A sequence of history commits, each given its clock value and the
session state it snapshots, applied to the initially empty store. -/
def commitRun (K : Nat) (inputs : List (Nat × SessionState)) : HistoryStore :=
  inputs.foldl (fun st p => saveToHistory K p.1 p.2 st) ⟨[], -1⟩

lemma commitRun_go (K : Nat) :
    ∀ (inputs : List (Nat × SessionState)) (L : List HistoryState),
      (∀ p ∈ inputs, jsTruthy p.2.generatedImage = true) →
      inputs.foldl (fun st p => saveToHistory K p.1 p.2 st)
          ⟨L.drop (L.length - K), ((L.drop (L.length - K)).length : Int) - 1⟩
        = ⟨(L ++ inputs.map (fun p => mkSnapshot p.1 p.2)).drop
             ((L.length + inputs.length) - K),
           (((L ++ inputs.map (fun p => mkSnapshot p.1 p.2)).drop
             ((L.length + inputs.length) - K)).length : Int) - 1⟩ := by
  intro inputs
  induction inputs with
  | nil =>
      intro L h
      simp
  | cons q rest ih =>
      intro L h
      rw [List.foldl_cons]
      rw [saveToHistory_rtake K q.1 q.2 (h q (by simp)) L]
      have hstep := ih (L ++ [mkSnapshot q.1 q.2])
        (fun p hp => h p (by simp [hp]))
      have hL : (L ++ [mkSnapshot q.1 q.2]).length = L.length + 1 := by simp
      rw [hL] at hstep
      rw [hstep]
      have hmap : (L ++ [mkSnapshot q.1 q.2]) ++
            rest.map (fun p => mkSnapshot p.1 p.2)
          = L ++ (q :: rest).map (fun p => mkSnapshot p.1 p.2) := by
        simp
      have hidx : L.length + 1 + rest.length = L.length + (q :: rest).length := by
        simp only [List.length_cons]
        omega
      rw [hmap, hidx]

/-- A concrete session state with a present generated image, used by the
witness theorems. -/
def sampleSession (img pr : String) : SessionState :=
  { generatedImage := some img
    prompt := pr
    roomImage := some "room"
    products := []
    isInitialGeneration := true }

/-- Four concrete commits, one more than the default capacity. -/
def sampleInputs : List (Nat × SessionState) :=
  [(0, sampleSession "img0" "p0"), (1, sampleSession "img1" "p1"),
   (2, sampleSession "img2" "p2"), (3, sampleSession "img3" "p3")]

/-- C2: over every reachable store the entry list never exceeds the
capacity `K`; and a pure sequence of commits (no undo/redo in between)
of states carrying generated images retains exactly the `K` most recent
snapshots in commit order, the oldest entry being dropped on each
overflowing insert, with the cursor at the tail. -/
theorem history_capacity_and_fifo (K : Nat) :
    (∀ st : HistoryStore, Reachable K st → st.history.length ≤ K) ∧
    (∀ inputs : List (Nat × SessionState),
      (∀ p ∈ inputs, jsTruthy p.2.generatedImage = true) →
      (commitRun K inputs).history =
          (inputs.map (fun p => mkSnapshot p.1 p.2)).drop (inputs.length - K) ∧
        (commitRun K inputs).currentIndex =
          ((commitRun K inputs).history.length : Int) - 1) := by
  constructor
  · intro st h
    exact (reachable_inv h).1
  · intro inputs hall
    have hgo := commitRun_go K inputs [] hall
    simp only [List.length_nil, Nat.zero_sub, List.drop_zero, List.drop_nil,
      List.nil_append, Nat.zero_add, Nat.cast_zero, zero_sub] at hgo
    unfold commitRun
    rw [hgo]
    exact ⟨rfl, rfl⟩

/-- Witness for C2 at four concrete commits against capacity 3. -/
theorem history_capacity_and_fifo_witness :
    (commitRun 3 sampleInputs).history =
      (sampleInputs.map (fun p => mkSnapshot p.1 p.2)).drop
        (sampleInputs.length - 3) :=
  ((history_capacity_and_fifo 3).2 sampleInputs (by decide)).1

/-- C3: committing `D` to a store holding `[A, B, C]` with the cursor on
`B` discards the entries after the cursor and appends, yielding
`[A, B, D]` with the cursor on `D`. -/
theorem commit_truncates_branch (A B C : HistoryState) (now : Nat)
    (cs : SessionState) (himg : jsTruthy cs.generatedImage = true) :
    saveToHistory 3 now cs ⟨[A, B, C], 1⟩ = ⟨[A, B, mkSnapshot now cs], 2⟩ := by
  unfold saveToHistory
  rw [if_neg (by simp [himg])]
  dsimp only
  norm_num
  exact ⟨rfl, rfl⟩

/-- Witness for C3 at concrete snapshots. -/
theorem commit_truncates_branch_witness :
    saveToHistory 3 7 (sampleSession "imgW" "pW")
        ⟨[mkSnapshot 0 (sampleSession "img0" "p0"),
          mkSnapshot 1 (sampleSession "img1" "p1"),
          mkSnapshot 2 (sampleSession "img2" "p2")], 1⟩
      = ⟨[mkSnapshot 0 (sampleSession "img0" "p0"),
          mkSnapshot 1 (sampleSession "img1" "p1"),
          mkSnapshot 7 (sampleSession "imgW" "pW")], 2⟩ :=
  commit_truncates_branch _ _ _ 7 (sampleSession "imgW" "pW") (by decide)

/-- C4: from any reachable store on which undo is enabled, undo followed
by redo (with no commit in between) leaves the entry list untouched,
returns the cursor to its pre-undo position, and the snapshot handed to
the restore callback by the redo is exactly the entry that was current
before the undo. -/
theorem undo_redo_roundtrip (K : Nat) (st : HistoryStore)
    (hre : Reachable K st) (hcan : canUndo st = true) :
    (redo (undo st).1).1.history = st.history ∧
    (redo (undo st).1).1.currentIndex = st.currentIndex ∧
    (redo (undo st).1).2 = st.history[st.currentIndex.toNat]? ∧
    (st.history[st.currentIndex.toNat]?).isSome = true := by
  obtain ⟨hlen, hcur⟩ := reachable_inv hre
  have hgt : 0 < st.currentIndex := by simpa [canUndo] using hcan
  rcases hcur with ⟨he, hc⟩ | ⟨h0, hlt⟩
  · omega
  · unfold undo
    rw [if_pos hgt]
    dsimp only
    unfold redo
    dsimp only
    rw [if_pos (by omega)]
    dsimp only
    have hidx : st.currentIndex - 1 + 1 = st.currentIndex := by omega
    rw [hidx]
    have hbound : st.currentIndex.toNat < st.history.length := by omega
    refine ⟨rfl, rfl, rfl, ?_⟩
    rw [List.getElem?_eq_getElem hbound]
    rfl

/-- A concrete reachable store with two entries, cursor at the tail. -/
def twoEntryStore : HistoryStore :=
  saveToHistory 3 1 (sampleSession "img1" "p1")
    (saveToHistory 3 0 (sampleSession "img0" "p0") ⟨[], -1⟩)

/-- Witness for C4 at a concrete two-entry store. -/
theorem undo_redo_roundtrip_witness :
    (redo (undo twoEntryStore).1).1.history = twoEntryStore.history ∧
    (redo (undo twoEntryStore).1).1.currentIndex = twoEntryStore.currentIndex ∧
    (redo (undo twoEntryStore).1).2 =
      twoEntryStore.history[twoEntryStore.currentIndex.toNat]? ∧
    (twoEntryStore.history[twoEntryStore.currentIndex.toNat]?).isSome = true :=
  undo_redo_roundtrip 3 twoEntryStore
    (Reachable.commit 1 (sampleSession "img1" "p1")
      (Reachable.commit 0 (sampleSession "img0" "p0") Reachable.init))
    (by decide)

/-- A concrete refinement-mode state in which a scene generation request
is still outstanding (`isGeneratingRoom` set). -/
def busyRoomState : AppState :=
  { roomImage := some "room"
    products := [{ id := "p1", image := some "img", isGenerating := false }]
    prompt := ""
    generatedImage := some "gen"
    isLoading := false
    error := none
    isInitialGeneration := false
    isGeneratingRoom := true }

/-- C5 counterexample: the claim asserts that reset clears the busy
flags, but `resetExperience` never touches `isGeneratingRoom`, so a reset
issued while a scene generation is outstanding leaves that busy flag
set. -/
theorem reset_leaves_room_busy_flag :
    ¬ ((resetExperience 9 busyRoomState ⟨[], -1⟩).1.isGeneratingRoom = false) := by
  decide

/-- C5 amended: after `resetExperience` the session is in `INITIAL` mode
with exactly one item whose image is absent, an absent composite, no
error, the item and composite busy flags cleared, and an empty history
store; the scene busy flag `isGeneratingRoom`, however, is left unchanged
rather than cleared.  The default images are modelled from the spec
(`constants.ts` is not among the sources). -/
theorem reset_restores_defaults (now : Nat) (s : AppState) (st : HistoryStore) :
    (resetExperience now s st).1.isInitialGeneration = true ∧
    (resetExperience now s st).1.products =
      [{ id := "prod-" ++ toString now, image := none, isGenerating := false }] ∧
    (resetExperience now s st).1.generatedImage = none ∧
    (resetExperience now s st).1.error = none ∧
    (resetExperience now s st).1.isLoading = false ∧
    (resetExperience now s st).1.prompt = "" ∧
    (resetExperience now s st).1.isGeneratingRoom = s.isGeneratingRoom ∧
    (resetExperience now s st).2 = ⟨[], -1⟩ ∧
    hasHistory (resetExperience now s st).2 = false := by
  refine ⟨rfl, rfl, rfl, rfl, rfl, rfl, rfl, rfl, rfl⟩

lemma copyProduct_eq (p : Product) : copyProduct p = p := rfl

lemma map_copyProduct (l : List Product) : l.map copyProduct = l := by
  induction l with
  | nil => rfl
  | cons a as ih => rw [List.map_cons, copyProduct_eq, ih]

/-- C10: the restore callback overwrites every snapshotted session field
with the snapshot's captured value and clears the error slot, and the
snapshot built at commit time captures exactly the commit-time session
fields, the per-item busy flags included. -/
theorem restore_overwrites_all_fields (now : Nat) (cs : SessionState)
    (h : HistoryState) (s : AppState) :
    (restoreState h s).generatedImage = h.generatedImage ∧
    (restoreState h s).prompt = h.prompt ∧
    (restoreState h s).roomImage = h.roomImage ∧
    (restoreState h s).products = h.products ∧
    (restoreState h s).isInitialGeneration = h.isInitialGeneration ∧
    (restoreState h s).error = none ∧
    (mkSnapshot now cs).generatedImage = cs.generatedImage ∧
    (mkSnapshot now cs).prompt = cs.prompt ∧
    (mkSnapshot now cs).roomImage = cs.roomImage ∧
    (mkSnapshot now cs).products = cs.products ∧
    (mkSnapshot now cs).isInitialGeneration = cs.isInitialGeneration := by
  refine ⟨rfl, rfl, rfl, rfl, rfl, rfl, rfl, rfl, rfl, ?_, rfl⟩
  exact map_copyProduct cs.products

/-- A valid initial-mode session about to run its first composite
generation: scene and product images present, prompt non-empty, no
composite yet. -/
def preSuccessState : AppState :=
  { roomImage := some "room.png"
    products := [{ id := "p1", image := some "prod.png", isGenerating := false }]
    prompt := "place the lamp"
    generatedImage := none
    isLoading := false
    error := none
    isInitialGeneration := true
    isGeneratingRoom := false }

/-- C1, evaluated at the failing input: on the first successful composite
generation the success path sets the fresh composite image, switches to
refinement mode and clears the prompt, but the deferred history commit
runs the `saveToHistory` closure over the pre-success session — whose
`generatedImage` is still absent — so its guard skips the commit and the
history records no snapshot of the post-success state at all. -/
theorem commit_misses_post_success_state :
    ((handleGeneration 5 (Except.ok { image := some "IMG", text := none })
        preSuccessState ⟨[], -1⟩).1.generatedImage
      = some "data:image/png;base64,IMG") ∧
    ((handleGeneration 5 (Except.ok { image := some "IMG", text := none })
        preSuccessState ⟨[], -1⟩).1.isInitialGeneration = false) ∧
    ((handleGeneration 5 (Except.ok { image := some "IMG", text := none })
        preSuccessState ⟨[], -1⟩).1.prompt = "") ∧
    ((handleGeneration 5 (Except.ok { image := some "IMG", text := none })
        preSuccessState ⟨[], -1⟩).2.1.history = []) := by
  decide

/-- C6: in `INITIAL` mode, a missing scene image, an absence of items
with present images, or an empty prompt makes `handleGeneration` fail
with a validation message and contact the external service zero times;
the missing-inputs and missing-prompt messages are distinct. -/
theorem composite_validation_no_service_call (now : Nat)
    (outcome : Except String GenResult) (s : AppState) (st : HistoryStore)
    (hmode : s.isInitialGeneration = true)
    (hmiss : jsTruthy s.roomImage = false ∨
      s.products.filter (fun p => jsTruthy p.image) = [] ∨
      s.prompt.isEmpty = true) :
    (handleGeneration now outcome s st).2.2 = false ∧
    ((handleGeneration now outcome s st).1.error = some missingInputsMsg ∨
      (handleGeneration now outcome s st).1.error = some missingPromptMsg) ∧
    missingInputsMsg ≠ missingPromptMsg := by
  unfold handleGeneration
  by_cases hc1 : (s.isInitialGeneration &&
      (!jsTruthy s.roomImage ||
        (s.products.filter (fun p => jsTruthy p.image)).isEmpty)) = true
  · rw [if_pos hc1]
    exact ⟨rfl, Or.inl rfl, by decide⟩
  · have hprompt : s.prompt.isEmpty = true := by
      rcases hmiss with hA | hB | hC
      · exact absurd (by simp [hmode, hA]) hc1
      · exact absurd (by simp [hmode, hB]) hc1
      · exact hC
    rw [if_neg hc1]
    rw [if_neg (show ¬((!s.isInitialGeneration &&
        !jsTruthy s.generatedImage) = true) by simp [hmode])]
    rw [if_pos hprompt]
    exact ⟨rfl, Or.inr rfl, by decide⟩

/-- An initial-mode state with an absent scene image but a present
product image and prompt. -/
def missingRoomState : AppState :=
  { roomImage := none
    products := [{ id := "p1", image := some "img", isGenerating := false }]
    prompt := "hello"
    generatedImage := none
    isLoading := false
    error := none
    isInitialGeneration := true
    isGeneratingRoom := false }

/-- Witness for C6 at a concrete state with a missing scene image. -/
theorem composite_validation_no_service_call_witness :
    (handleGeneration 0 (Except.error "never called") missingRoomState
        ⟨[], -1⟩).2.2 = false ∧
    ((handleGeneration 0 (Except.error "never called") missingRoomState
        ⟨[], -1⟩).1.error = some missingInputsMsg ∨
      (handleGeneration 0 (Except.error "never called") missingRoomState
        ⟨[], -1⟩).1.error = some missingPromptMsg) ∧
    missingInputsMsg ≠ missingPromptMsg :=
  composite_validation_no_service_call 0 (Except.error "never called")
    missingRoomState ⟨[], -1⟩ rfl (Or.inl rfl)

/-- C7: when the multimodal stage throws or yields no image part while
the text-only fallback stage yields an image, `generateVisual` succeeds
with the fallback image, and the surrounding `handleGeneration` ends in
refinement mode with that image stored as the composite and no
user-visible error. -/
theorem fallback_success_enters_refinement
    (stage1 : Except String ApiResponse) (resp2 : ApiResponse)
    (now : Nat) (s : AppState) (st : HistoryStore) (img : String)
    (h1 : (∃ e, stage1 = Except.error e) ∨
      (∃ r, stage1 = Except.ok r ∧ jsTruthy (extractParts r).1 = false))
    (h2 : (extractParts resp2).1 = some img)
    (himg : img.isEmpty = false)
    (hmode : s.isInitialGeneration = true)
    (hroom : jsTruthy s.roomImage = true)
    (hprod : (s.products.filter (fun p => jsTruthy p.image)).isEmpty = false)
    (hprompt : s.prompt.isEmpty = false) :
    generateVisual stage1 (Except.ok resp2) =
      Except.ok { image := some img, text := (extractParts resp2).2 } ∧
    (handleGeneration now (generateVisual stage1 (Except.ok resp2))
      s st).1.isInitialGeneration = false ∧
    (handleGeneration now (generateVisual stage1 (Except.ok resp2))
      s st).1.generatedImage = some ("data:image/png;base64," ++ img) ∧
    (handleGeneration now (generateVisual stage1 (Except.ok resp2))
      s st).1.error = none := by
  have hfb : fallbackStage (Except.ok resp2) =
      Except.ok { image := some img, text := (extractParts resp2).2 } := by
    unfold fallbackStage
    dsimp only
    rw [if_neg (by simp [h2, jsTruthy, himg])]
    rw [h2]
  have hgv : generateVisual stage1 (Except.ok resp2) =
      Except.ok { image := some img, text := (extractParts resp2).2 } := by
    rcases h1 with ⟨e, he⟩ | ⟨r, hr, hni⟩
    · subst he
      unfold generateVisual
      dsimp only
      rw [hfb]
    · subst hr
      unfold generateVisual
      dsimp only
      rw [if_neg (by simp [hni]), hfb]
  refine ⟨hgv, ?_⟩
  rw [hgv]
  unfold handleGeneration
  rw [if_neg (show ¬((s.isInitialGeneration && (!jsTruthy s.roomImage ||
    (s.products.filter (fun p => jsTruthy p.image)).isEmpty)) = true) by
      simp [hmode, hroom, hprod])]
  rw [if_neg (show ¬((!s.isInitialGeneration &&
    !jsTruthy s.generatedImage) = true) by simp [hmode])]
  rw [if_neg (by simp [hprompt])]
  dsimp only
  rw [if_pos (show jsTruthy (some img) = true by simp [jsTruthy, himg])]
  exact ⟨rfl, rfl, rfl⟩

/-- A fallback-stage response whose first candidate carries one inline
image part. -/
def imageOnlyResponse : ApiResponse :=
  { candidates := [{ parts := [{ inlineData := some "FALLBACK", text := none }] }]
    promptFeedback := none }

/-- Witness for C7: failing multimodal stage, image-bearing fallback. -/
theorem fallback_success_enters_refinement_witness :
    generateVisual (Except.error "model declined") (Except.ok imageOnlyResponse) =
      Except.ok { image := some "FALLBACK", text := (extractParts imageOnlyResponse).2 } ∧
    (handleGeneration 3 (generateVisual (Except.error "model declined")
      (Except.ok imageOnlyResponse)) preSuccessState ⟨[], -1⟩).1.isInitialGeneration = false ∧
    (handleGeneration 3 (generateVisual (Except.error "model declined")
      (Except.ok imageOnlyResponse)) preSuccessState ⟨[], -1⟩).1.generatedImage =
        some ("data:image/png;base64," ++ "FALLBACK") ∧
    (handleGeneration 3 (generateVisual (Except.error "model declined")
      (Except.ok imageOnlyResponse)) preSuccessState ⟨[], -1⟩).1.error = none :=
  fallback_success_enters_refinement (Except.error "model declined")
    imageOnlyResponse 3 preSuccessState ⟨[], -1⟩ "FALLBACK"
    (Or.inl ⟨"model declined", rfl⟩) (by decide) (by decide) rfl (by decide)
    (by decide) (by decide)

/-- C8: each generation operation leaves its busy flag cleared once it
settles, whatever the outcome: the item flag of `handleGenerateProduct`,
the scene flag of `handleGenerateRoom`, and the composite flag of
`handleGeneration` are all false afterwards (provided no other request
had set them beforehand, which covers the validation-failure paths that
never raise the flag). -/
theorem busy_flags_cleared_on_settle :
    (∀ (id genPrompt : String) (index : Nat) (outcome : Except String String)
        (s : AppState),
      (∀ p ∈ s.products, p.id = id → p.isGenerating = false) →
      ∀ p ∈ (handleGenerateProduct id genPrompt index outcome s).products,
        p.id = id → p.isGenerating = false) ∧
    (∀ (genPrompt : String) (outcome : Except String String) (s : AppState),
      s.isGeneratingRoom = false →
      (handleGenerateRoom genPrompt outcome s).isGeneratingRoom = false) ∧
    (∀ (now : Nat) (outcome : Except String GenResult) (s : AppState)
        (st : HistoryStore),
      s.isLoading = false →
      (handleGeneration now outcome s st).1.isLoading = false) := by
  refine ⟨?_, ?_, ?_⟩
  · intro id genPrompt index outcome s hentry p hp hid
    unfold handleGenerateProduct at hp
    by_cases hgp : genPrompt.isEmpty = true
    · rw [if_pos hgp] at hp
      exact hentry p hp hid
    · rw [if_neg hgp] at hp
      cases outcome with
      | ok result =>
          dsimp only at hp
          rcases List.mem_map.mp hp with ⟨q, hq, hpe⟩
          by_cases hqid : q.id = id
          · rw [← hpe]
            simp [hqid]
          · rw [← hpe] at hid
            simp [hqid] at hid
      | error msg =>
          dsimp only at hp
          rcases List.mem_map.mp hp with ⟨q, hq, hpe⟩
          by_cases hqid : q.id = id
          · rw [← hpe]
            simp [hqid]
          · rw [← hpe] at hid
            simp [hqid] at hid
  · intro genPrompt outcome s hentry
    unfold handleGenerateRoom
    by_cases hgp : genPrompt.isEmpty = true
    · rw [if_pos hgp]
      exact hentry
    · rw [if_neg hgp]
      cases outcome with
      | ok result => rfl
      | error msg => rfl
  · intro now outcome s st hentry
    unfold handleGeneration
    by_cases h1 : (s.isInitialGeneration && (!jsTruthy s.roomImage ||
        (s.products.filter (fun p => jsTruthy p.image)).isEmpty)) = true
    · rw [if_pos h1]
      exact hentry
    · rw [if_neg h1]
      by_cases hb : (!s.isInitialGeneration && !jsTruthy s.generatedImage) = true
      · rw [if_pos hb]
        exact hentry
      · rw [if_neg hb]
        by_cases hp : s.prompt.isEmpty = true
        · rw [if_pos hp]
          exact hentry
        · rw [if_neg hp]
          cases outcome with
          | error msg => rfl
          | ok r =>
              dsimp only
              by_cases hi : jsTruthy r.image = true
              · rw [if_pos hi]
              · rw [if_neg hi]

/-- Witness for C8: one settled operation per busy flag, at concrete
inputs. -/
theorem busy_flags_cleared_on_settle_witness :
    ({ id := "p1", image := some "img", isGenerating := false } :
        Product).isGenerating = false ∧
    (handleGenerateRoom "a loft" (Except.error "boom")
        preSuccessState).isGeneratingRoom = false ∧
    (handleGeneration 0 (Except.error "boom") preSuccessState
        ⟨[], -1⟩).1.isLoading = false :=
  ⟨busy_flags_cleared_on_settle.1 "p1" "a chair" 0 (Except.ok "img")
      preSuccessState (by decide)
      { id := "p1", image := some "img", isGenerating := false } (by decide) rfl,
   busy_flags_cleared_on_settle.2.1 "a loft" (Except.error "boom")
      preSuccessState rfl,
   busy_flags_cleared_on_settle.2.2 0 (Except.error "boom") preSuccessState
      ⟨[], -1⟩ rfl⟩

/-- A concrete run of progress-timer increments, each drawn from the
source's range `[0, 15)`. -/
def progressRuns : List ℚ := [10, 10, 10, 10, 10, 10, 10, 10, 9, 14]

/-- C9 counterexample: the claim says the progress value never advances
past 90 while the request is outstanding, but the tick only refuses to
advance once the value has already reached 90; a tick taken at 89 with
increment 14 (inside the `[0, 15)` range) advances the value to 103,
past 90. -/
theorem progress_tick_overshoots_90 :
    progressRuns.all (fun r => decide (0 ≤ r) && decide (r < 15)) = true ∧
    ticks 0 progressRuns = 103 ∧
    ¬ (ticks 0 progressRuns ≤ 90) := by
  refine ⟨by norm_num [progressRuns], by norm_num [ticks, progressRuns, tick],
    by norm_num [ticks, progressRuns, tick]⟩

lemma ticks_lt (rs : List ℚ) :
    ∀ start : ℚ, start < 105 → (∀ r ∈ rs, 0 ≤ r ∧ r < 15) →
      ticks start rs < 105 := by
  induction rs with
  | nil =>
      intro start hs _
      simpa [ticks] using hs
  | cons a as ih =>
      intro start hs h
      have ha := h a (by simp)
      have hstep : tick start a < 105 := by
        unfold tick
        split
        · exact hs
        · linarith [ha.1, ha.2]
      have hrest := ih (tick start a) hstep (fun r hr => h r (by simp [hr]))
      simpa [ticks, List.foldl_cons] using hrest

/-- C9 amended: a tick taken at or beyond 90 no longer advances the
progress value, and from any value below 105 (in particular from the
initial 0) the value stays below 105 — a single tick from just under 90
may overshoot past 90, up to but not including 105.  When the request
settles, both interval timers are cancelled, progress is forced to 100
with the terminal `Complete!` status, and the surface is hidden after the
fixed delay. -/
theorem progress_bounded_and_settle :
    (∀ prev r : ℚ, prev < 105 → 0 ≤ r → r < 15 → tick prev r < 105) ∧
    (∀ prev r : ℚ, 90 ≤ prev → tick prev r = prev) ∧
    (∀ rs : List ℚ, (∀ r ∈ rs, 0 ≤ r ∧ r < 15) → ticks 0 rs < 105) ∧
    (∀ ls : LoadingState,
      (settleLoading ls).progressIntervalActive = false ∧
      (settleLoading ls).statusIntervalActive = false ∧
      (settleLoading ls).loadingProgress = 100 ∧
      (settleLoading ls).loadingStatus = "Complete!" ∧
      (hideLoading (settleLoading ls)).showLoadingProgress = false) := by
  refine ⟨?_, ?_, ?_, ?_⟩
  · intro prev r hprev h0 h15
    unfold tick
    split
    · exact hprev
    · linarith
  · intro prev r hge
    unfold tick
    rw [if_pos hge]
  · intro rs h
    exact ticks_lt rs 0 (by norm_num) h
  · intro ls
    exact ⟨rfl, rfl, rfl, rfl, rfl⟩

/-- Witness for the amended C9 at a concrete tick. -/
theorem progress_bounded_and_settle_witness : tick 50 10 < 105 :=
  progress_bounded_and_settle.1 50 10 (by norm_num) (by norm_num) (by norm_num)

end AuraSync
